import Mathlib

/-!
Shallow embedding of the aicara-relay file vault.

The repository has two source files:

* `app.py` — a Flask relay with three endpoints: `ingest_consciousness`
  (POST /ingest), `retrieve_consciousness` (GET /vault/<id>) and
  `verify_consciousness` (GET /vault/<id>/verify).  State consists of the
  object store (DigitalOcean Spaces, a key/value blob store addressed by
  the string key `consciousness/{vault_id}/{filename}`) and the append-only
  audit log `vault_log.jsonl`, one JSON record per line.
* `bastion_cron.py` — a periodic auditor: `get_vault_files` scans the audit
  log for ingest/success records, `verify_file_integrity` re-checks one
  blob against its recorded digest and appends an integrity record,
  `run_integrity_check` drives the whole run and appends a summary record,
  and `cleanup_old_logs` prunes the integrity trail to its last 1000 lines.

Modelling decisions:

* Byte buffers are `List Nat`; the log files are Lean lists in file order
  (append at the end, scans read from the head, mirroring top-to-bottom
  file reads).
* `hashlib.sha256(...).hexdigest()` is an external library call, so every
  operation is parametrised by a hash function `sha256 : Bytes → String`;
  claims that need collision-freedom or non-emptiness of real SHA-256
  digests take those facts as explicit hypotheses.
* `uuid.UUID(vault_id)` succeeding is likewise an external library check,
  modelled by a parameter `uuidValid : String → Bool`.
* Backend outcomes that depend on the network (a `put_object` rejected
  with `ClientError`, the `head_bucket` connectivity probe) are passed in
  as booleans; a stored object that the backend cannot return maps to
  `none`, exactly as both `download_from_spaces` helpers turn any
  `ClientError` into `None`.
* `datetime.utcnow()` is passed in as an opaque `now : String` per request.
-/

/-- Byte buffers (`bytes` in the Python source). -/
abbrev Bytes := List Nat

/-- Python truthiness of an optional string: `None` and the empty string
are falsy, every other string is truthy (the `if not x` pattern). -/
def pyTruthy : Option String → Bool
  | none => false
  | some s => decide (s ≠ "")

/-- Rendering of an optional string inside a Python f-string: `None`
prints as the four characters "None". -/
def pyStr : Option String → String
  | none => "None"
  | some s => s

/-- One line of `vault_log.jsonl`, as written by `log_vault_operation`
in `app.py`. -/
structure LogEntry where
  timestamp : String
  operation : String
  filename : String
  sha256_hash : String
  vault_id : Option String
  status : String
  error : Option String
deriving DecidableEq

/-- The record built by `log_vault_operation` in `app.py` (the function
appends exactly this JSON object to `vault_log.jsonl`). -/
def log_vault_operation (now operation filename file_hash : String)
    (vault_id : Option String) (status : String) (error : Option String) : LogEntry :=
  { timestamp := now, operation := operation, filename := filename,
    sha256_hash := file_hash, vault_id := vault_id, status := status, error := error }

/-- The blob store: an association list from string keys to byte buffers,
newest binding first (`put_object` on an existing key overwrites it). -/
abbrev Store := List (String × Bytes)

/-- The composite object key `consciousness/{vault_id}/{filename}` used by
both `upload_to_spaces` and `download_from_spaces`. -/
def spacesKey (vault_id filename : String) : String :=
  "consciousness/" ++ vault_id ++ "/" ++ filename

/-- Backend `put_object`: (over)writes the blob under the key. -/
def put_object (s : Store) (key : String) (body : Bytes) : Store :=
  (key, body) :: s

/-- Backend `get_object`: the newest blob under the key, or `none`. -/
def get_object (s : Store) (key : String) : Option Bytes :=
  (s.find? (fun kv => kv.fst == key)).map (fun kv => kv.snd)

/-- The `upload_to_spaces` helper of `app.py`, restricted to the state
change it performs when the backend accepts the call. -/
def upload_to_spaces (s : Store) (file_content : Bytes) (filename vault_id : String) : Store :=
  put_object s (spacesKey vault_id filename) file_content

/-- The `download_from_spaces` helper of `app.py` and `bastion_cron.py`:
any `ClientError` is logged and mapped to `None`, so the result is just
the optional blob. -/
def download_from_spaces (s : Store) (vault_id filename : String) : Option Bytes :=
  get_object s (spacesKey vault_id filename)

/-- The mutable state `app.py` touches: the Spaces bucket and the
`vault_log.jsonl` audit log (in file order, oldest first). -/
structure VaultState where
  store : Store
  vaultLog : List LogEntry
deriving DecidableEq

/-- Outcome of `ingest_consciousness`: the success JSON body, or an error
status with its message. -/
inductive IngestResult where
  | ok (vault_id filename sha256_hash : String) (file_size : Nat) (timestamp : String)
  | err (code : Nat) (message : String)
deriving DecidableEq

/-- Outcome of `retrieve_consciousness`: the raw file bytes, the
metadata JSON body, or an error status with its message. -/
inductive RetrieveResult where
  | file (content : Bytes)
  | metadata (vault_id filename sha256_hash timestamp status : String)
  | err (code : Nat) (message : String)
deriving DecidableEq

/-- Outcome of `verify_consciousness`: the verification JSON body, or an
error status with its message. -/
inductive VerifyResult where
  | ok (vault_id filename original_hash current_hash : String)
      (integrity_verified : Bool) (file_size : Nat) (timestamp : String)
  | err (code : Nat) (message : String)
deriving DecidableEq

/-- POST /ingest (`ingest_consciousness` in `app.py`).  The caller-side
file-presence checks and werkzeug's `secure_filename` are external; the
parameter `original_filename` is the sanitized name and the emptiness
test mirrors `if not original_filename`.  `upload_ok` is the backend's
answer to `put_object` (`False` on `ClientError`). -/
def ingest_consciousness (sha256 : Bytes → String) (now vault_id : String)
    (upload_ok : Bool) (original_filename : String) (file_content : Bytes)
    (st : VaultState) : VaultState × IngestResult :=
  if original_filename = "" then
    (st, .err 400 "Invalid filename")
  else
    let file_size := file_content.length
    let file_hash := sha256 file_content
    if upload_ok = false then
      ({ st with vaultLog := st.vaultLog ++
          [log_vault_operation now "ingest" original_filename file_hash
            (some vault_id) "failed" (some "Upload to Spaces failed")] },
       .err 500 "Failed to store file in vault")
    else
      ({ store := upload_to_spaces st.store file_content original_filename vault_id,
         vaultLog := st.vaultLog ++
          [log_vault_operation now "ingest" original_filename file_hash
            (some vault_id) "success" none] },
       .ok vault_id original_filename file_hash file_size now)

/-- GET /vault/:id (`retrieve_consciousness` in `app.py`).  `filename`
and `metadata_only` mirror the query parameters; the metadata scan keeps
the first record with matching `vault_id` and `operation = ingest`
(no status filter appears in the source). -/
def retrieve_consciousness (sha256 : Bytes → String) (uuidValid : String → Bool)
    (now vault_id : String) (filename : Option String) (metadata_only : Bool)
    (st : VaultState) : VaultState × RetrieveResult :=
  if uuidValid vault_id = false then
    (st, .err 400 "Invalid vault ID format")
  else if metadata_only then
    match st.vaultLog.find? (fun e =>
        e.vault_id == some vault_id && e.operation == "ingest") with
    | some e => (st, .metadata vault_id e.filename e.sha256_hash e.timestamp e.status)
    | none => (st, .err 404 "Vault ID not found")
  else if pyTruthy filename = false then
    (st, .err 400 "Filename required for file retrieval")
  else
    let fn := filename.getD ""
    match download_from_spaces st.store vault_id fn with
    | none =>
        ({ st with vaultLog := st.vaultLog ++
            [log_vault_operation now "retrieve" fn "" (some vault_id) "failed"
              (some "File not found in vault")] },
         .err 404 "File not found in vault")
    | some file_content =>
        let file_hash := sha256 file_content
        ({ st with vaultLog := st.vaultLog ++
            [log_vault_operation now "retrieve" fn file_hash (some vault_id)
              "success" none] },
         .file file_content)

/-- GET /vault/:id/verify (`verify_consciousness` in `app.py`).  The log
scan keeps the first record matching `vault_id`, `filename` and
`operation = ingest`; `if not original_hash` then rejects a missing or
empty recorded digest with a 404. -/
def verify_consciousness (sha256 : Bytes → String) (uuidValid : String → Bool)
    (now vault_id : String) (filename : Option String)
    (st : VaultState) : VaultState × VerifyResult :=
  if uuidValid vault_id = false then
    (st, .err 400 "Invalid vault ID format")
  else if pyTruthy filename = false then
    (st, .err 400 "Filename required for verification")
  else
    let fn := filename.getD ""
    match download_from_spaces st.store vault_id fn with
    | none => (st, .err 404 "File not found in vault")
    | some file_content =>
        let current_hash := sha256 file_content
        let original_hash := (st.vaultLog.find? (fun e =>
            e.vault_id == some vault_id && e.filename == fn &&
            e.operation == "ingest")).map (fun e => e.sha256_hash)
        if pyTruthy original_hash = false then
          (st, .err 404 "Original hash not found in vault log")
        else
          (st, .ok vault_id fn (original_hash.getD "") current_hash
            (current_hash == original_hash.getD "") file_content.length now)

/-- One catalog entry produced by `get_vault_files` in `bastion_cron.py`. -/
structure VaultFile where
  vault_id : Option String
  filename : String
  original_hash : String
  timestamp : String
deriving DecidableEq

/-- The `get_vault_files` scan of `bastion_cron.py`: every audit record
with `operation = ingest` and `status = success`, in log order. -/
def get_vault_files (vaultLog : List LogEntry) : List VaultFile :=
  vaultLog.filterMap (fun e =>
    if e.operation == "ingest" && e.status == "success" then
      some { vault_id := e.vault_id, filename := e.filename,
             original_hash := e.sha256_hash, timestamp := e.timestamp }
    else none)

/-- One line of `bastion_integrity.jsonl`: either a per-file check record
written by `log_integrity_check`, or the per-run summary record written at
the end of `run_integrity_check`. -/
inductive IntegrityRecord where
  | check (vault_id : Option String) (filename status : String)
      (original_hash current_hash : Option String)
      (integrity_verified : Option Bool) (error : Option String)
  | summary (total_files verified_files failed_files : Nat) (status : String)
deriving DecidableEq

/-- The `integrity_verified` field of an integrity record (absent, hence
`none`, on summary records). -/
def IntegrityRecord.verifiedField : IntegrityRecord → Option Bool
  | .check _ _ _ _ _ iv _ => iv
  | .summary _ _ _ _ => none

/-- Whether a record is the per-run summary record. -/
def isSummary : IntegrityRecord → Bool
  | .check _ _ _ _ _ _ _ => false
  | .summary _ _ _ _ => true

/-- The record built by `log_integrity_check` in `bastion_cron.py`.  Its
`integrity_verified` field is `original_hash == current_hash` when both
hashes are Python-truthy (present and non-empty) and `None` otherwise. -/
def log_integrity_check (vault_id : Option String) (filename status : String)
    (original_hash current_hash : Option String) (error : Option String) : IntegrityRecord :=
  .check vault_id filename status original_hash current_hash
    (if pyTruthy original_hash && pyTruthy current_hash then
      some (original_hash == current_hash)
    else none)
    error

/-- The `verify_file_integrity` function of `bastion_cron.py`: fetch the
blob, hash it, compare with the recorded digest; the integrity record it
appends is returned together with the boolean it reports to the caller. -/
def verify_file_integrity (sha256 : Bytes → String) (store : Store)
    (vault_id : Option String) (filename original_hash : String) : IntegrityRecord × Bool :=
  match get_object store (spacesKey (pyStr vault_id) filename) with
  | none =>
      (log_integrity_check vault_id filename "failed" (some original_hash) none
        (some "File not found in Spaces"), false)
  | some file_content =>
      let current_hash := sha256 file_content
      if current_hash == original_hash then
        (log_integrity_check vault_id filename "verified" (some original_hash)
          (some current_hash) none, true)
      else
        (log_integrity_check vault_id filename "corrupted" (some original_hash)
          (some current_hash) (some "Hash mismatch"), false)

/-- The per-file outcome the auditor classifies: the blob is present and
its freshly computed digest equals the recorded one. -/
def blobIntact (sha256 : Bytes → String) (store : Store)
    (vault_id : Option String) (filename original_hash : String) : Bool :=
  match get_object store (spacesKey (pyStr vault_id) filename) with
  | none => false
  | some file_content => sha256 file_content == original_hash

/-- One iteration of the main loop of `run_integrity_check`: append the
per-file integrity record and bump the verified or failed counter. -/
def integrity_step (sha256 : Bytes → String) (store : Store)
    (acc : List IntegrityRecord × Nat × Nat) (f : VaultFile) :
    List IntegrityRecord × Nat × Nat :=
  let r := verify_file_integrity sha256 store f.vault_id f.filename f.original_hash
  (acc.1 ++ [r.1],
   if r.2 then acc.2.1 + 1 else acc.2.1,
   if r.2 then acc.2.2 else acc.2.2 + 1)

/-- The `run_integrity_check` driver of `bastion_cron.py`.  It returns
the new contents of `bastion_integrity.jsonl`; `connectivity_ok` is the
outcome of the `check_spaces_connectivity` probe.  The run aborts, writing
nothing, when the probe fails, and also returns early, writing nothing,
when the catalog of ingest/success records is empty. -/
def run_integrity_check (sha256 : Bytes → String) (connectivity_ok : Bool)
    (vs : VaultState) (integrityLog : List IntegrityRecord) : List IntegrityRecord :=
  if connectivity_ok = false then integrityLog
  else
    let vault_files := get_vault_files vs.vaultLog
    if vault_files.isEmpty then integrityLog
    else
      let result := vault_files.foldl (integrity_step sha256 vs.store) ([], 0, 0)
      integrityLog ++ result.1 ++
        [.summary vault_files.length result.2.1 result.2.2 "completed"]

/-- The `cleanup_old_logs` routine of `bastion_cron.py`: when the
integrity trail holds more than 1000 lines, rewrite it with its last 1000
lines (`lines[-1000:]`); otherwise leave it untouched.  It operates on raw
lines, so it is stated for an arbitrary element type. -/
def cleanup_old_logs {α : Type} (lines : List α) : List α :=
  if lines.length > 1000 then lines.drop (lines.length - 1000) else lines

/-! Concrete instances used to evaluate the model on closed inputs. -/

/-- A concrete, executable stand-in for the hexdigest function, used only
to evaluate the model at closed inputs: it never returns the empty string
and separates the small byte buffers appearing below. -/
def demoHash (b : Bytes) : String :=
  Nat.repr (b.foldl (fun a n => a * 1000 + n % 1000 + 1) 7)

/-- A concrete stand-in for the `uuid.UUID` format check, used only to
evaluate the model at closed inputs. -/
def demoValid (_s : String) : Bool :=
  true

/-- A fixed vault identifier used by the closed evaluations. -/
def vidW : String := "00000000-0000-4000-8000-000000000001"

/-- A second, different fixed vault identifier. -/
def vidW2 : String := "00000000-0000-4000-8000-000000000002"

/-! Helper lemmas about the store and the log scans. -/

theorem get_object_put_same (s : Store) (k : String) (c : Bytes) :
    get_object (put_object s k c) k = some c := by
  simp [get_object, put_object]

theorem download_upload_same (s : Store) (c : Bytes) (fn vid : String) :
    download_from_spaces (upload_to_spaces s c fn vid) vid fn = some c := by
  simp [download_from_spaces, upload_to_spaces, get_object_put_same]

theorem find?_append_of_none {α : Type} (p : α → Bool) (l₁ l₂ : List α)
    (h : l₁.find? p = none) : (l₁ ++ l₂).find? p = l₂.find? p := by
  simp [List.find?_append, h]

/-- The empty system state: empty bucket, empty audit log. -/
def st0 : VaultState := { store := [], vaultLog := [] }

/-- C1: if the blob store holds bytes under the key for a valid vault id
and filename, and the audit log contains an ingest record matching both
(the scan keeping the first such record, whose recorded digest is
non-empty, as every real hexdigest is), then verification returns the
recorded original hash, the freshly computed current hash, and
`integrity_verified` equal to the comparison of the two digests, as a
success payload, never as an error status. -/
theorem verify_returns_match_as_data (sha256 : Bytes → String) (uuidValid : String → Bool)
    (now vault_id fn : String) (st : VaultState) (content : Bytes) (e : LogEntry)
    (hvalid : uuidValid vault_id = true)
    (hfn : fn ≠ "")
    (hblob : download_from_spaces st.store vault_id fn = some content)
    (hfind : st.vaultLog.find? (fun r =>
        r.vault_id == some vault_id && r.filename == fn && r.operation == "ingest") = some e)
    (hhash : e.sha256_hash ≠ "") :
    verify_consciousness sha256 uuidValid now vault_id (some fn) st =
      (st, .ok vault_id fn e.sha256_hash (sha256 content)
        (sha256 content == e.sha256_hash) content.length now)
    ∧ ((sha256 content == e.sha256_hash) = true ↔ e.sha256_hash = sha256 content) := by
  constructor
  · simp [verify_consciousness, hvalid, pyTruthy, hfn, hblob, hfind, hhash]
  · rw [beq_iff_eq]
    exact eq_comm

/-- Concrete ingest audit record used to evaluate C1. -/
def entC1 : LogEntry :=
  log_vault_operation "t1" "ingest" "f.txt" (demoHash [1, 2, 3]) (some vidW) "success" none

/-- Concrete state used to evaluate C1: one stored blob and its matching
ingest record. -/
def stC1 : VaultState :=
  { store := [(spacesKey vidW "f.txt", [1, 2, 3])], vaultLog := [entC1] }

/-- C1 witness: the verification theorem evaluated at a concrete state. -/
theorem verify_returns_match_witness :
    verify_consciousness demoHash demoValid "t2" vidW (some "f.txt") stC1 =
      (stC1, .ok vidW "f.txt" (demoHash [1, 2, 3]) (demoHash [1, 2, 3])
        (demoHash [1, 2, 3] == demoHash [1, 2, 3]) 3 "t2")
    ∧ ((demoHash [1, 2, 3] == demoHash [1, 2, 3]) = true ↔
        demoHash [1, 2, 3] = demoHash [1, 2, 3]) :=
  verify_returns_match_as_data demoHash demoValid "t2" vidW "f.txt" stC1 [1, 2, 3] entC1
    (by decide) (by decide) (by decide) (by decide) (by decide)

/-- C2: ingesting content `c` under a sanitized non-empty filename `f`
(with the backend accepting the put and the generated identifier passing
the format check, as every generated identifier does) returns that very
vault id, and retrieving with the returned vault id and `f` yields
exactly the bytes `c`. -/
theorem ingest_retrieve_roundtrip (sha256 : Bytes → String) (uuidValid : String → Bool)
    (now now2 vault_id fn : String) (c : Bytes) (st : VaultState)
    (hfn : fn ≠ "") (hvalid : uuidValid vault_id = true) :
    (ingest_consciousness sha256 now vault_id true fn c st).2 =
      .ok vault_id fn (sha256 c) c.length now
    ∧ (retrieve_consciousness sha256 uuidValid now2 vault_id (some fn) false
        (ingest_consciousness sha256 now vault_id true fn c st).1).2 = .file c := by
  constructor
  · simp [ingest_consciousness, hfn]
  · simp [ingest_consciousness, hfn, retrieve_consciousness, hvalid, pyTruthy,
      download_upload_same]

/-- C2 witness: the round-trip theorem evaluated at concrete content and
filename, starting from the empty state. -/
theorem ingest_retrieve_roundtrip_witness :
    (ingest_consciousness demoHash "t1" vidW true "a.bin" [5, 6] st0).2 =
      .ok vidW "a.bin" (demoHash [5, 6]) 2 "t1"
    ∧ (retrieve_consciousness demoHash demoValid "t2" vidW (some "a.bin") false
        (ingest_consciousness demoHash "t1" vidW true "a.bin" [5, 6] st0).1).2 =
      .file [5, 6] :=
  ingest_retrieve_roundtrip demoHash demoValid "t1" "t2" vidW "a.bin" [5, 6] st0
    (by decide) (by decide)

/-- Concrete failed-ingest audit record (the earlier one) used to
evaluate C3. -/
def entC3a : LogEntry :=
  log_vault_operation "t1" "ingest" "a.txt" "h1" (some vidW) "failed"
    (some "Upload to Spaces failed")

/-- Concrete success-ingest audit record (the later one) used to
evaluate C3. -/
def entC3b : LogEntry :=
  log_vault_operation "t2" "ingest" "a.txt" "h2" (some vidW) "success" none

/-- Concrete state used to evaluate C3: a failed ingest record followed
by a success ingest record for the same vault id. -/
def stC3 : VaultState := { store := [], vaultLog := [entC3a, entC3b] }

/-- C3 counterexample: with a failed ingest record preceding a success
ingest record for the same vault id, metadata-only retrieval returns the
failed record's filename, digest, timestamp and status, not the first
ingest/success record's digest as the claim states (the source filters on
`operation = ingest` only, never on `status`). -/
theorem retrieve_metadata_status_cex :
    (retrieve_consciousness demoHash demoValid "t9" vidW none true stC3).2 =
      RetrieveResult.metadata vidW "a.txt" "h1" "t1" "failed"
    ∧ (retrieve_consciousness demoHash demoValid "t9" vidW none true stC3).2 ≠
      RetrieveResult.metadata vidW "a.txt" "h2" "t2" "success" := by
  decide

/-- C3 amended: metadata-only retrieval, given a vault id passing the
format check, returns the filename, digest, timestamp and status of the
first audit record with `operation = ingest` matching that vault id,
regardless of the record's status, and returns a not-found error when no
ingest record at all matches. -/
theorem retrieve_metadata_first_ingest (sha256 : Bytes → String) (uuidValid : String → Bool)
    (now vault_id : String) (filename : Option String) (st : VaultState)
    (hvalid : uuidValid vault_id = true) :
    (∀ e, st.vaultLog.find? (fun r =>
        r.vault_id == some vault_id && r.operation == "ingest") = some e →
      (retrieve_consciousness sha256 uuidValid now vault_id filename true st).2 =
        .metadata vault_id e.filename e.sha256_hash e.timestamp e.status)
    ∧ (st.vaultLog.find? (fun r =>
        r.vault_id == some vault_id && r.operation == "ingest") = none →
      (retrieve_consciousness sha256 uuidValid now vault_id filename true st).2 =
        .err 404 "Vault ID not found") := by
  constructor
  · intro e he
    simp [retrieve_consciousness, hvalid, he]
  · intro he
    simp [retrieve_consciousness, hvalid, he]

/-- C3 witness: the amended metadata theorem evaluated at the concrete
two-record state. -/
theorem retrieve_metadata_first_ingest_witness :
    (retrieve_consciousness demoHash demoValid "t9" vidW none true stC3).2 =
      RetrieveResult.metadata vidW entC3a.filename entC3a.sha256_hash
        entC3a.timestamp entC3a.status :=
  (retrieve_metadata_first_ingest demoHash demoValid "t9" vidW none stC3
    (by decide)).1 entC3a (by decide)

/-- Concrete success-ingest audit record used to evaluate C4. -/
def entC4 : LogEntry :=
  log_vault_operation "t1" "ingest" "f.bin" (demoHash [1, 2]) (some vidW2) "success" none

/-- Concrete state used to evaluate C4: one stored blob and its matching
ingest record. -/
def stC4 : VaultState :=
  { store := [(spacesKey vidW2 "f.bin", [1, 2])], vaultLog := [entC4] }

/-- C4 counterexample: at a concrete state, a verification call reaches a
result (a success payload), yet the audit log after the call is exactly
the audit log before it — no audit record describing the verification was
appended (the source's verification handler never calls
`log_vault_operation`). -/
theorem verify_appends_no_record_cex :
    (verify_consciousness demoHash demoValid "t5" vidW2 (some "f.bin") stC4).2 =
      VerifyResult.ok vidW2 "f.bin" (demoHash [1, 2]) (demoHash [1, 2]) true 2 "t5"
    ∧ (verify_consciousness demoHash demoValid "t5" vidW2 (some "f.bin") stC4).1.vaultLog =
      stC4.vaultLog := by
  decide

/-- C4 amended: the Audit Log captures ingest and retrieval events only;
the verification operation appends no audit record and leaves the whole
vault state, audit log included, unchanged. -/
theorem verify_appends_no_record (sha256 : Bytes → String) (uuidValid : String → Bool)
    (now vault_id : String) (filename : Option String) (st : VaultState) :
    (verify_consciousness sha256 uuidValid now vault_id filename st).1 = st := by
  unfold verify_consciousness
  split
  · rfl
  split
  · rfl
  dsimp only
  split
  · rfl
  split <;> rfl

/-- C5: when the backend rejects the put, ingest appends a failed audit
record for that vault id, leaves the store untouched, and reports a
storage error to the caller; and whenever ingest appends a success ingest
record, the blob is durably retrievable under the vault id and filename
(so no success record is ever appended for a blob that was not stored). -/
theorem ingest_failed_put (sha256 : Bytes → String) (now vault_id fn : String)
    (c : Bytes) (st : VaultState) (hfn : fn ≠ "") :
    ((ingest_consciousness sha256 now vault_id false fn c st).1.vaultLog =
        st.vaultLog ++ [log_vault_operation now "ingest" fn (sha256 c) (some vault_id)
          "failed" (some "Upload to Spaces failed")]
      ∧ (ingest_consciousness sha256 now vault_id false fn c st).1.store = st.store
      ∧ (ingest_consciousness sha256 now vault_id false fn c st).2 =
          .err 500 "Failed to store file in vault")
    ∧ ∀ (upload_ok : Bool) (e : LogEntry),
        (ingest_consciousness sha256 now vault_id upload_ok fn c st).1.vaultLog =
          st.vaultLog ++ [e] →
        e.operation = "ingest" → e.status = "success" →
        download_from_spaces
          (ingest_consciousness sha256 now vault_id upload_ok fn c st).1.store
          vault_id fn = some c := by
  refine ⟨⟨?_, ?_, ?_⟩, ?_⟩
  · simp [ingest_consciousness, hfn]
  · simp [ingest_consciousness, hfn]
  · simp [ingest_consciousness, hfn]
  · intro upload_ok e hlog hop hstat
    cases upload_ok with
    | false =>
        exfalso
        have h1 : log_vault_operation now "ingest" fn (sha256 c) (some vault_id)
            "failed" (some "Upload to Spaces failed") = e := by
          have h2 : st.vaultLog ++ [log_vault_operation now "ingest" fn (sha256 c)
              (some vault_id) "failed" (some "Upload to Spaces failed")] =
              st.vaultLog ++ [e] := by
            rw [← hlog]
            simp [ingest_consciousness, hfn]
          have h3 := List.append_cancel_left h2
          simpa using h3
        rw [← h1] at hstat
        simp [log_vault_operation] at hstat
    | true =>
        simp [ingest_consciousness, hfn, download_upload_same]

/-- C5 witness: the failed-put theorem evaluated at a concrete ingest
from the empty state. -/
theorem ingest_failed_put_witness :
    (ingest_consciousness demoHash "t1" vidW false "b.txt" [7] st0).2 =
      IngestResult.err 500 "Failed to store file in vault" :=
  ((ingest_failed_put demoHash "t1" vidW "b.txt" [7] st0 (by decide)).1).2.2

/-- C6: whenever the integrity trail holds more than 1000 lines, the
pruning routine leaves exactly 1000 lines, and those are precisely the
final segment of the original trail (most recent records, original
relative order, oldest dropped first). -/
theorem cleanup_keeps_last_1000 {α : Type} (lines : List α) (h : lines.length > 1000) :
    (cleanup_old_logs lines).length = 1000
    ∧ lines = lines.take (lines.length - 1000) ++ cleanup_old_logs lines := by
  unfold cleanup_old_logs
  rw [if_pos h]
  constructor
  · rw [List.length_drop]
    omega
  · exact (List.take_append_drop _ _).symm

/-- C6 witness: the pruning theorem evaluated on a 1200-record trail. -/
theorem cleanup_keeps_last_1000_witness :
    (cleanup_old_logs (List.range 1200)).length = 1000
    ∧ List.range 1200 =
      (List.range 1200).take ((List.range 1200).length - 1000) ++
        cleanup_old_logs (List.range 1200) :=
  cleanup_keeps_last_1000 (List.range 1200) (by simp)

/-- The boolean `verify_file_integrity` reports is exactly the per-file
outcome: blob present with matching digest. -/
theorem verify_file_integrity_snd (sha256 : Bytes → String) (store : Store)
    (vid : Option String) (fn oh : String) :
    (verify_file_integrity sha256 store vid fn oh).2 = blobIntact sha256 store vid fn oh := by
  unfold verify_file_integrity blobIntact
  cases get_object store (spacesKey (pyStr vid) fn) with
  | none => rfl
  | some c =>
      dsimp only
      cases hc : (sha256 c == oh) <;> simp [hc]

/-- Per-file records written by `verify_file_integrity` are never summary
records. -/
theorem verify_file_integrity_not_summary (sha256 : Bytes → String) (store : Store)
    (vid : Option String) (fn oh : String) :
    isSummary (verify_file_integrity sha256 store vid fn oh).1 = false := by
  unfold verify_file_integrity
  cases get_object store (spacesKey (pyStr vid) fn) with
  | none => rfl
  | some c =>
      dsimp only
      split <;> rfl

/-- Unrolling of the auditor's main loop: the records it accumulates are
the per-file integrity records in catalog order, and its two counters add
the number of intact and of non-intact files to the accumulators. -/
theorem integrity_step_foldl (sha256 : Bytes → String) (store : Store)
    (files : List VaultFile) :
    ∀ (recs : List IntegrityRecord) (vc fc : Nat),
    files.foldl (integrity_step sha256 store) (recs, vc, fc) =
      (recs ++ files.map (fun f =>
          (verify_file_integrity sha256 store f.vault_id f.filename f.original_hash).1),
       vc + (files.filter (fun f =>
          blobIntact sha256 store f.vault_id f.filename f.original_hash)).length,
       fc + (files.filter (fun f =>
          !blobIntact sha256 store f.vault_id f.filename f.original_hash)).length) := by
  induction files with
  | nil => intro recs vc fc; simp
  | cons f fs ih =>
      intro recs vc fc
      rw [List.foldl_cons, integrity_step, verify_file_integrity_snd, ih]
      cases hb : blobIntact sha256 store f.vault_id f.filename f.original_hash <;>
        simp [hb, List.filter_cons] <;> omega

/-- Splitting a list by a boolean predicate partitions its length. -/
theorem filter_length_partition {α : Type} (p : α → Bool) (l : List α) :
    (l.filter p).length + (l.filter (fun a => !p a)).length = l.length := by
  induction l with
  | nil => rfl
  | cons a t ih =>
      cases ha : p a <;> simp [List.filter_cons, ha] <;> omega

/-- C7 counterexample: starting from an empty catalog, a run whose
connectivity probe passes writes nothing at all to the integrity trail —
in particular it does not append exactly one summary record (the source
returns early when `get_vault_files` comes back empty). -/
theorem run_summary_empty_cex :
    run_integrity_check demoHash true st0 [] = []
    ∧ ((run_integrity_check demoHash true st0 []).filter isSummary).length = 0 := by
  decide

set_option maxHeartbeats 1600000 in
/-- C7 amended: every run that passes the connectivity probe and finds a
non-empty catalog appends the per-file integrity records (none of them a
summary) followed by exactly one summary record whose `total_files` is
the number of ingest/success catalog entries and whose `verified_files`
and `failed_files` count the files whose blob is present with a matching
digest and the remaining files (a deleted blob counts as failed); the two
counts partition the total. -/
theorem run_appends_one_summary (sha256 : Bytes → String) (vs : VaultState)
    (ilog : List IntegrityRecord) (h : get_vault_files vs.vaultLog ≠ []) :
    run_integrity_check sha256 true vs ilog =
      ilog ++ ((get_vault_files vs.vaultLog).map (fun f =>
          (verify_file_integrity sha256 vs.store f.vault_id f.filename f.original_hash).1))
        ++ [IntegrityRecord.summary (get_vault_files vs.vaultLog).length
            ((get_vault_files vs.vaultLog).filter (fun f =>
              blobIntact sha256 vs.store f.vault_id f.filename f.original_hash)).length
            ((get_vault_files vs.vaultLog).filter (fun f =>
              !blobIntact sha256 vs.store f.vault_id f.filename f.original_hash)).length
            "completed"]
    ∧ (∀ r ∈ (get_vault_files vs.vaultLog).map (fun f =>
          (verify_file_integrity sha256 vs.store f.vault_id f.filename f.original_hash).1),
        isSummary r = false)
    ∧ ((get_vault_files vs.vaultLog).filter (fun f =>
          blobIntact sha256 vs.store f.vault_id f.filename f.original_hash)).length
      + ((get_vault_files vs.vaultLog).filter (fun f =>
          !blobIntact sha256 vs.store f.vault_id f.filename f.original_hash)).length
      = (get_vault_files vs.vaultLog).length := by
  refine ⟨?_, ?_, ?_⟩
  · unfold run_integrity_check
    rw [if_neg (by simp)]
    dsimp only
    rw [if_neg (by simp [h]), integrity_step_foldl]
    simp
  · intro r hr
    rw [List.mem_map] at hr
    obtain ⟨f, _, rfl⟩ := hr
    exact verify_file_integrity_not_summary sha256 vs.store f.vault_id f.filename f.original_hash
  · exact filter_length_partition _ _

/-- Third fixed vault identifier, for the three-file auditor scenario. -/
def vidW3 : String := "00000000-0000-4000-8000-000000000003"

/-- First catalog entry of the three-file auditor scenario. -/
def entW1 : LogEntry :=
  log_vault_operation "t1" "ingest" "f1" (demoHash [1]) (some vidW) "success" none

/-- Second catalog entry of the three-file auditor scenario. -/
def entW2 : LogEntry :=
  log_vault_operation "t2" "ingest" "f2" (demoHash [2]) (some vidW2) "success" none

/-- Third catalog entry of the three-file auditor scenario; its blob is
deleted from the store. -/
def entW3 : LogEntry :=
  log_vault_operation "t3" "ingest" "f3" (demoHash [3]) (some vidW3) "success" none

/-- The three-file auditor scenario: three ingest/success records, the
third one's blob removed out-of-band from the store. -/
def vsW : VaultState :=
  { store := [(spacesKey vidW "f1", [1]), (spacesKey vidW2 "f2", [2])],
    vaultLog := [entW1, entW2, entW3] }

/-- C7 witness: the amended run theorem evaluated on the three-file
catalog with one deleted blob, where the counts come out as 3 total,
2 verified and 1 failed. -/
theorem run_appends_one_summary_witness :
    run_integrity_check demoHash true vsW [] =
      [] ++ ((get_vault_files vsW.vaultLog).map (fun f =>
          (verify_file_integrity demoHash vsW.store f.vault_id f.filename f.original_hash).1))
        ++ [IntegrityRecord.summary (get_vault_files vsW.vaultLog).length
            ((get_vault_files vsW.vaultLog).filter (fun f =>
              blobIntact demoHash vsW.store f.vault_id f.filename f.original_hash)).length
            ((get_vault_files vsW.vaultLog).filter (fun f =>
              !blobIntact demoHash vsW.store f.vault_id f.filename f.original_hash)).length
            "completed"]
    ∧ (get_vault_files vsW.vaultLog).length = 3
    ∧ ((get_vault_files vsW.vaultLog).filter (fun f =>
        blobIntact demoHash vsW.store f.vault_id f.filename f.original_hash)).length = 2
    ∧ ((get_vault_files vsW.vaultLog).filter (fun f =>
        !blobIntact demoHash vsW.store f.vault_id f.filename f.original_hash)).length = 1 :=
  ⟨(run_appends_one_summary demoHash vsW [] (by decide)).1, by decide, by decide, by decide⟩

/-- C8: after a successful ingest of content `c` (under a fresh vault id:
no earlier ingest record matches the pair, which the identifier freshness
guarantees), replacing the stored blob out-of-band with different bytes
`c'` whose digest differs from the digest of `c` (collision-freedom of the
real hash) makes a subsequent verification of that vault id and filename
report `integrity_verified = false` with the current hash different from
the original hash, both carried in a success payload. -/
theorem tamper_detection (sha256 : Bytes → String) (uuidValid : String → Bool)
    (now now2 vault_id fn : String) (c c' : Bytes) (st : VaultState)
    (hfn : fn ≠ "") (hvalid : uuidValid vault_id = true)
    (hfresh : st.vaultLog.find? (fun e =>
        e.vault_id == some vault_id && e.filename == fn && e.operation == "ingest") = none)
    (hne : sha256 c' ≠ sha256 c) (hnz : sha256 c ≠ "") :
    (verify_consciousness sha256 uuidValid now2 vault_id (some fn)
      { store := put_object (ingest_consciousness sha256 now vault_id true fn c st).1.store
          (spacesKey vault_id fn) c',
        vaultLog := (ingest_consciousness sha256 now vault_id true fn c st).1.vaultLog }).2 =
      VerifyResult.ok vault_id fn (sha256 c) (sha256 c') false c'.length now2
    ∧ sha256 c' ≠ sha256 c := by
  refine ⟨?_, hne⟩
  have hb : (sha256 c' == sha256 c) = false := by simp [hne]
  simp [verify_consciousness, ingest_consciousness, log_vault_operation, hfn,
    hvalid, pyTruthy, download_from_spaces, get_object_put_same, hfresh, hnz, hb]

/-- C8 witness: the tamper theorem evaluated at concrete contents, with
the stored bytes replaced after a concrete ingest. -/
theorem tamper_detection_witness :
    (verify_consciousness demoHash demoValid "t2" vidW (some "g.bin")
      { store := put_object (ingest_consciousness demoHash "t1" vidW true "g.bin" [1] st0).1.store
          (spacesKey vidW "g.bin") [2],
        vaultLog := (ingest_consciousness demoHash "t1" vidW true "g.bin" [1] st0).1.vaultLog }).2 =
      VerifyResult.ok vidW "g.bin" (demoHash [1]) (demoHash [2]) false 1 "t2"
    ∧ demoHash [2] ≠ demoHash [1] :=
  tamper_detection demoHash demoValid "t1" "t2" vidW "g.bin" [1] [2] st0
    (by decide) (by decide) (by decide) (by decide) (by decide)

/-- The vault ids carried by the success-ingest records of an audit log,
in log order. -/
def successIngestIds (log : List LogEntry) : List (Option String) :=
  (log.filter (fun e => e.operation == "ingest" && e.status == "success")).map
    (fun e => e.vault_id)

/-- Effect of one ingest on the success-ingest vault ids: a successful
put appends the generated id, a failed put appends nothing. -/
theorem successIngestIds_ingest (sha256 : Bytes → String) (now v : String)
    (ok : Bool) (fn : String) (c : Bytes) (st : VaultState) (hfn : fn ≠ "") :
    successIngestIds (ingest_consciousness sha256 now v ok fn c st).1.vaultLog =
      successIngestIds st.vaultLog ++ (if ok then [some v] else []) := by
  cases ok <;>
    simp [ingest_consciousness, hfn, successIngestIds, List.filter_append,
      log_vault_operation]

/-- Appending a fresh element to a duplicate-free list keeps it
duplicate-free. -/
theorem nodup_append_one {α : Type} (l : List α) (a : α)
    (h : l.Nodup) (ha : a ∉ l) : (l ++ [a]).Nodup := by
  refine h.append (List.nodup_singleton a) ?_
  intro x hx hxa
  rw [List.mem_singleton] at hxa
  subst hxa
  exact ha hx

/-- C9: ingest returns exactly the generated vault id, independent of the
filename and content, so two ingests with distinct generated identifiers
(distinct with overwhelming probability, being drawn from a 128-bit
random space) return distinct vault ids even for identical filenames and
contents; and when the generated ids are fresh, the success-ingest
records of the audit log never come to share a vault id. -/
theorem vault_id_uniqueness (sha256 : Bytes → String)
    (now1 now2 v1 v2 fn1 fn2 : String) (c1 c2 : Bytes) (ok1 ok2 : Bool) (st : VaultState)
    (h1 : fn1 ≠ "") (h2 : fn2 ≠ "") (hv : v1 ≠ v2)
    (hm1 : some v1 ∉ successIngestIds st.vaultLog)
    (hm2 : some v2 ∉ successIngestIds st.vaultLog)
    (hnodup : (successIngestIds st.vaultLog).Nodup) :
    (ok1 = true → (ingest_consciousness sha256 now1 v1 ok1 fn1 c1 st).2 =
      .ok v1 fn1 (sha256 c1) c1.length now1)
    ∧ (ok2 = true → (ingest_consciousness sha256 now2 v2 ok2 fn2 c2
        (ingest_consciousness sha256 now1 v1 ok1 fn1 c1 st).1).2 =
      .ok v2 fn2 (sha256 c2) c2.length now2)
    ∧ (successIngestIds (ingest_consciousness sha256 now2 v2 ok2 fn2 c2
        (ingest_consciousness sha256 now1 v1 ok1 fn1 c1 st).1).1.vaultLog).Nodup := by
  refine ⟨?_, ?_, ?_⟩
  · intro hok
    subst hok
    simp [ingest_consciousness, h1]
  · intro hok
    subst hok
    simp [ingest_consciousness, h2]
  · rw [successIngestIds_ingest sha256 now2 v2 ok2 fn2 c2 _ h2,
      successIngestIds_ingest sha256 now1 v1 ok1 fn1 c1 st h1]
    cases ok1 with
    | false =>
        cases ok2 with
        | false => simpa using hnodup
        | true => simpa using nodup_append_one _ _ hnodup hm2
    | true =>
        have hstep : (successIngestIds st.vaultLog ++ [some v1]).Nodup :=
          nodup_append_one _ _ hnodup hm1
        cases ok2 with
        | false => simpa using hstep
        | true =>
            have hmem : some v2 ∉ successIngestIds st.vaultLog ++ [some v1] := by
              intro hmem
              rcases List.mem_append.mp hmem with hA | hB
              · exact hm2 hA
              · rw [List.mem_singleton] at hB
                exact hv (Option.some.inj hB).symm
            simpa using nodup_append_one _ _ hstep hmem

/-- C9 witness: two concrete ingests with identical filename and content
but distinct generated identifiers, starting from the empty state. -/
theorem vault_id_uniqueness_witness :
    (true = true → (ingest_consciousness demoHash "t1" vidW true "f" [1] st0).2 =
      IngestResult.ok vidW "f" (demoHash [1]) 1 "t1")
    ∧ (true = true → (ingest_consciousness demoHash "t2" vidW2 true "f" [1]
        (ingest_consciousness demoHash "t1" vidW true "f" [1] st0).1).2 =
      IngestResult.ok vidW2 "f" (demoHash [1]) 1 "t2")
    ∧ (successIngestIds (ingest_consciousness demoHash "t2" vidW2 true "f" [1]
        (ingest_consciousness demoHash "t1" vidW true "f" [1] st0).1).1.vaultLog).Nodup :=
  vault_id_uniqueness demoHash "t1" "t2" vidW vidW2 "f" "f" [1] [1] true true st0
    (by decide) (by decide) (by decide) (by decide) (by decide) (by decide)

/-- C10: the `integrity_verified` field of a record written by
`log_integrity_check` is a boolean only when both the original and the
current hash are present and non-empty, and then it equals the comparison
of the two; with the current hash absent it is always null, and in
particular the record appended when the blob fetch fails (status
`failed`, current hash absent) carries a null `integrity_verified`,
never `false`. -/
theorem integrity_verified_guard :
    (∀ (vid : Option String) (fn status : String) (oh ch err : Option String) (b : Bool),
      (log_integrity_check vid fn status oh ch err).verifiedField = some b →
      pyTruthy oh = true ∧ pyTruthy ch = true ∧ b = (oh == ch))
    ∧ (∀ (vid : Option String) (fn status : String) (oh err : Option String),
      (log_integrity_check vid fn status oh none err).verifiedField = none)
    ∧ (∀ (sha256 : Bytes → String) (store : Store) (vid : Option String) (fn oh : String),
      get_object store (spacesKey (pyStr vid) fn) = none →
      (verify_file_integrity sha256 store vid fn oh).1 =
        log_integrity_check vid fn "failed" (some oh) none
          (some "File not found in Spaces")
      ∧ (verify_file_integrity sha256 store vid fn oh).1.verifiedField = none) := by
  refine ⟨?_, ?_, ?_⟩
  · intro vid fn status oh ch err b h
    unfold log_integrity_check IntegrityRecord.verifiedField at h
    by_cases hg : (pyTruthy oh && pyTruthy ch) = true
    · rw [if_pos hg] at h
      obtain ⟨hgo, hgc⟩ : pyTruthy oh = true ∧ pyTruthy ch = true := by simpa using hg
      exact ⟨hgo, hgc, (Option.some.inj h).symm⟩
    · rw [if_neg hg] at h
      exact absurd h (by simp)
  · intro vid fn status oh err
    simp [log_integrity_check, IntegrityRecord.verifiedField, pyTruthy]
  · intro sha256 store vid fn oh hget
    unfold verify_file_integrity
    rw [hget]
    exact ⟨rfl, by simp [log_integrity_check, IntegrityRecord.verifiedField, pyTruthy]⟩

/-- C10 witness: the guard theorem evaluated on a failed fetch from the
empty store, whose record has status `failed` and a null
`integrity_verified`. -/
theorem integrity_verified_guard_witness :
    get_object ([] : Store) (spacesKey (pyStr (some vidW)) "g.txt") = none
    ∧ ((verify_file_integrity demoHash [] (some vidW) "g.txt" "h1").1 =
        log_integrity_check (some vidW) "g.txt" "failed" (some "h1") none
          (some "File not found in Spaces")
      ∧ (verify_file_integrity demoHash [] (some vidW) "g.txt" "h1").1.verifiedField = none) :=
  ⟨by decide, integrity_verified_guard.2.2 demoHash [] (some vidW) "g.txt" "h1" (by decide)⟩
